import Mathlib

/-!
Shallow embedding of the realtime-chat client layer of `receta-app-v2`:
the message-stream reconciler, the typing-presence tracker and the local
typing-intent debouncer from `src/presentation/hooks/useChat.ts`, together
with the store-facing operations of
`src/domain/useCases/chat/ChatUseCase.ts`.

Timers (`setTimeout` / `clearTimeout`) are modelled with a virtual clock:
a pending timer is an absolute expiry time (in milliseconds) recorded in
the state; `clearTimeout` deletes the record, and advancing the virtual
clock fires exactly the timers whose expiry has been reached.  The
broadcast channel and the row store are external collaborators and appear
only through their responses (a list of rows, an error, an authenticated
user or none).
-/

namespace RecetaChat

/-- A sender, as resolved by `supabase.auth.getUser()`: identifier and
optional email. -/
structure Usuario where
  id : String
  email : Option String
  deriving Repr, DecidableEq

/-- The denormalized display data carried on a message
(`usuario` field of `Mensaje` in the source). -/
structure UsuarioInfo where
  email : String
  rol : String
  deriving Repr, DecidableEq

/-- A chat message as displayed (`Mensaje` model).  Timestamps are
modelled as natural numbers. -/
structure Mensaje where
  id : String
  contenido : String
  usuario_id : String
  created_at : Nat
  usuario : UsuarioInfo
  deriving Repr, DecidableEq

/-- A raw row of the `mensajes` table as returned by the store, with the
denormalized columns possibly absent. -/
structure Row where
  id : String
  contenido : String
  usuario_id : String
  created_at : Nat
  usuario_email : Option String
  usuario_rol : Option String
  deriving Repr, DecidableEq

/-- The mapping from a raw store row to a displayed message used in
`ChatUseCase.obtenerMensajes` (and, identically, in the live-insert
callback of `suscribirseAMensajes`): denormalized fields with defaults
`"Desconocido"` and `"usuario"`. -/
def formatMensaje (msg : Row) : Mensaje :=
  { id := msg.id
    contenido := msg.contenido
    usuario_id := msg.usuario_id
    created_at := msg.created_at
    usuario :=
      { email := msg.usuario_email.getD "Desconocido"
        rol := msg.usuario_rol.getD "usuario" } }

/-- The function `ChatUseCase.obtenerMensajes`, applied to the store's response.  The
select itself (order by `created_at` descending, `limit`) is performed by
the store; this function receives its response: an error, or data that
may be null (`data || []`).  On error the exception is caught and the
empty list returned; otherwise the rows are mapped through
`formatMensaje` and reversed so that the oldest message comes first. -/
def obtenerMensajes (resp : Except String (Option (List Row))) : List Mensaje :=
  match resp with
  | .error _ => []
  | .ok data => ((data.getD []).map formatMensaje).reverse

/-- The live-insert callback registered by `useChat`'s
`suscribirseAMensajes` subscription: the incoming message is appended to
the displayed list unless a message with the same identifier is already
present (`prev.some (m => m.id === nuevoMensaje.id)`). -/
def recvMensaje (prev : List Mensaje) (nuevoMensaje : Mensaje) : List Mensaje :=
  if prev.any (fun m => m.id == nuevoMensaje.id) then prev
  else prev ++ [nuevoMensaje]

/-- Delivering a whole sequence of insert events to the live callback,
starting from the currently displayed list. -/
def recvMensajes (prev : List Mensaje) (eventos : List Mensaje) : List Mensaje :=
  eventos.foldl recvMensaje prev

lemma recvMensaje_nodup {prev : List Mensaje} (m : Mensaje)
    (h : (prev.map Mensaje.id).Nodup) :
    ((recvMensaje prev m).map Mensaje.id).Nodup := by
  unfold recvMensaje
  split
  · exact h
  · rename_i hnot
    rw [List.map_append, List.map_singleton]
    refine List.Nodup.append h (List.nodup_singleton _) ?_
    intro a ha hb
    rw [List.mem_singleton] at hb
    subst hb
    rw [List.mem_map] at ha
    obtain ⟨x, hx, hxid⟩ := ha
    exact hnot (List.any_eq_true.mpr ⟨x, hx, by simp [hxid]⟩)

lemma recvMensajes_nodup (eventos : List Mensaje) (prev : List Mensaje)
    (h : (prev.map Mensaje.id).Nodup) :
    ((recvMensajes prev eventos).map Mensaje.id).Nodup := by
  induction eventos generalizing prev with
  | nil => exact h
  | cons e es ih =>
      exact ih (recvMensaje prev e) (recvMensaje_nodup e h)

/-- C1: for every sequence of insert events delivered to the live message
callback, the displayed message list never contains two entries with the
same identifier, even if an event with the same identifier is delivered
more than once or the message was already loaded by history: starting
from any displayed list with pairwise-distinct identifiers (e.g. the
loaded history), after any event sequence the identifiers are still
pairwise distinct. -/
theorem C1_no_duplicate_ids (history eventos : List Mensaje)
    (h : (history.map Mensaje.id).Nodup) :
    ((recvMensajes history eventos).map Mensaje.id).Nodup :=
  recvMensajes_nodup eventos history h

/-- Witness for C1 at a concrete input: a one-element history and three
events, two of which share the history's identifier. -/
theorem C1_no_duplicate_ids_witness :
    (([⟨"a", "hola", "u1", 0, ⟨"e", "usuario"⟩⟩] : List Mensaje).map
        Mensaje.id).Nodup ∧
    ((recvMensajes [⟨"a", "hola", "u1", 0, ⟨"e", "usuario"⟩⟩]
        [⟨"a", "otra", "u2", 1, ⟨"e", "usuario"⟩⟩,
         ⟨"b", "segunda", "u2", 2, ⟨"e", "usuario"⟩⟩,
         ⟨"b", "segunda", "u2", 2, ⟨"e", "usuario"⟩⟩]).map Mensaje.id).Nodup :=
  ⟨by decide,
   C1_no_duplicate_ids _ _ (by decide)⟩

/-! ## Typing presence tracker

The state mutated by `useChat`'s `suscribirseATyping` callback: the
`typingUsers` list and the per-sender timer table `typingTimers.current`
(sender identifier mapped to the absolute expiry time of its pending
3000ms timer), together with the virtual clock. -/

/-- An entry of the `typingUsers` state (sender identifier plus optional
email). -/
structure TypingUser where
  usuario_id : String
  email : Option String
  deriving Repr, DecidableEq

/-- The presence tracker's state: the displayed `typingUsers`, the
per-sender timer table (`typingTimers.current`, each live timer as its
absolute expiry time) and the virtual clock. -/
structure PresenceState where
  typingUsers : List TypingUser
  typingTimers : List (String × Nat)
  now : Nat
  deriving Repr, DecidableEq

/-- Modelling of `clearTimeout` plus `delete typingTimers.current[uid]`: the sender's
pending timer, if any, is removed from the table and will never fire. -/
def clearTimer (uid : String) (timers : List (String × Nat)) :
    List (String × Nat) :=
  timers.filter (fun p => !(p.1 == uid))

/-- The `suscribirseATyping` callback of `useChat` on one broadcast
event.  `escribiendo = true`: clear the sender's previous timer, add a
`TypingUser` unless one with the same identifier is present, and start a
fresh 3000ms expiry timer.  `escribiendo = false`: clear the timer and
remove the sender's entry. -/
def recvTyping (s : PresenceState) (uid : String) (email : Option String)
    (escribiendo : Bool) : PresenceState :=
  if escribiendo then
    { typingUsers :=
        if s.typingUsers.any (fun u => u.usuario_id == uid) then s.typingUsers
        else s.typingUsers ++ [⟨uid, email⟩]
      typingTimers := clearTimer uid s.typingTimers ++ [(uid, s.now + 3000)]
      now := s.now }
  else
    { typingUsers := s.typingUsers.filter (fun u => !(u.usuario_id == uid))
      typingTimers := clearTimer uid s.typingTimers
      now := s.now }

/-- Advance the virtual clock by `d` milliseconds.  Every pending timer
whose expiry is reached fires: its callback removes the sender's entry
from `typingUsers` and deletes the timer from the table (each callback
touches only its own sender, so firing them together equals firing them
one at a time). -/
def advance (s : PresenceState) (d : Nat) : PresenceState :=
  let t := s.now + d
  let fired := s.typingTimers.filter (fun p => p.2 ≤ t)
  { typingUsers :=
      s.typingUsers.filter (fun u => !(fired.any (fun p => p.1 == u.usuario_id)))
    typingTimers := s.typingTimers.filter (fun p => !(decide (p.2 ≤ t)))
    now := t }

/-- The `useEffect` cleanup of `useChat`, restricted to the presence
tracker: every timer in `typingTimers.current` is cleared and the table
reset to `{}`.  The cleanup does not touch the `typingUsers` state
value. -/
def teardownPresence (s : PresenceState) : PresenceState :=
  { s with typingTimers := [] }

/-- Number of `typingUsers` entries for a given sender. -/
def countUser (s : PresenceState) (uid : String) : Nat :=
  s.typingUsers.countP (fun u => u.usuario_id == uid)

/-- The sender's pending timers in the table (the table holds at most one
per sender in every reachable state). -/
def timersOf (s : PresenceState) (uid : String) : List (String × Nat) :=
  s.typingTimers.filter (fun p => p.1 == uid)

lemma timersOf_recvTyping_true (s : PresenceState) (uid : String)
    (email : Option String) :
    timersOf (recvTyping s uid email true) uid = [(uid, s.now + 3000)] := by
  unfold timersOf recvTyping clearTimer
  simp [List.filter_append, List.filter_filter]

lemma countUser_recvTyping_true (s : PresenceState) (uid : String)
    (email : Option String) (h : countUser s uid = 1) :
    countUser (recvTyping s uid email true) uid = 1 := by
  unfold countUser at h ⊢
  unfold recvTyping
  have hmem : s.typingUsers.any (fun u => u.usuario_id == uid) = true := by
    rw [List.any_eq_true]
    have : 0 < s.typingUsers.countP (fun u => u.usuario_id == uid) := by omega
    rw [List.countP_pos_iff] at this
    obtain ⟨u, hu, hu2⟩ := this
    exact ⟨u, hu, hu2⟩
  simp [hmem, h]

lemma recvTyping_true_typingTimers (s : PresenceState) (uid : String)
    (email : Option String) :
    (recvTyping s uid email true).typingTimers
      = clearTimer uid s.typingTimers ++ [(uid, s.now + 3000)] := by
  simp [recvTyping]

lemma recvTyping_true_now (s : PresenceState) (uid : String)
    (email : Option String) :
    (recvTyping s uid email true).now = s.now := by
  simp [recvTyping]

lemma recvTyping_false_typingUsers (s : PresenceState) (uid : String)
    (email : Option String) :
    (recvTyping s uid email false).typingUsers
      = s.typingUsers.filter (fun u => !(u.usuario_id == uid)) := by
  simp [recvTyping]

lemma recvTyping_false_typingTimers (s : PresenceState) (uid : String)
    (email : Option String) :
    (recvTyping s uid email false).typingTimers
      = clearTimer uid s.typingTimers := by
  simp [recvTyping]

lemma countUser_advance (s : PresenceState) (uid : String) (d : Nat) :
    countUser (advance s d) uid =
      if (s.typingTimers.filter (fun p => p.2 ≤ s.now + d)).any
          (fun p => p.1 == uid) then 0 else countUser s uid := by
  simp only [countUser, advance]
  rw [List.countP_filter]
  split
  · rename_i hany
    apply List.countP_eq_zero.mpr
    intro u hu
    simp only [Bool.and_eq_true, Bool.not_eq_true', beq_iff_eq, not_and]
    intro hid hB
    rw [hid, hany] at hB
    exact absurd hB (by simp)
  · rename_i hany
    rw [Bool.not_eq_true] at hany
    apply List.countP_congr
    intro u hu
    by_cases hid : u.usuario_id = uid
    · simp [hid, hany]
    · simp [hid]

lemma fired_recvTyping_true_lt (s : PresenceState) (uid : String)
    (email : Option String) (d : Nat) (hd : d < 3000) :
    (((recvTyping s uid email true).typingTimers.filter
        (fun p => p.2 ≤ (recvTyping s uid email true).now + d)).any
        (fun p => p.1 == uid)) = false := by
  rw [recvTyping_true_typingTimers, recvTyping_true_now, List.any_eq_false]
  intro p hp
  rw [List.mem_filter] at hp
  obtain ⟨hpmem, hple⟩ := hp
  rw [List.mem_append] at hpmem
  rcases hpmem with hpl | hpr
  · have := List.of_mem_filter hpl
    simpa using this
  · rw [List.mem_singleton] at hpr
    subst hpr
    simp only [decide_eq_true_eq] at hple
    omega

lemma fired_recvTyping_true_ge (s : PresenceState) (uid : String)
    (email : Option String) (d : Nat) (hd : 3000 ≤ d) :
    (((recvTyping s uid email true).typingTimers.filter
        (fun p => p.2 ≤ (recvTyping s uid email true).now + d)).any
        (fun p => p.1 == uid)) = true := by
  rw [recvTyping_true_typingTimers, recvTyping_true_now, List.any_eq_true]
  refine ⟨(uid, s.now + 3000), ?_, by simp⟩
  rw [List.mem_filter]
  refine ⟨List.mem_append_right _ (List.mem_singleton_self _), ?_⟩
  simp only [decide_eq_true_eq]
  omega

/-- C2: while a sender is already in the typing state, another
TypingEvent with `escribiendo = true` for that sender keeps exactly one
`TypingUser` entry (no duplicate) and restarts the 3000ms expiry timer:
afterwards the sender is still present whenever less than 3000ms elapse,
and is gone once 3000ms or more elapse with no further refresh. -/
theorem C2_typing_refresh (s : PresenceState) (uid : String)
    (email : Option String) (h : countUser s uid = 1) :
    countUser (recvTyping s uid email true) uid = 1
    ∧ timersOf (recvTyping s uid email true) uid = [(uid, s.now + 3000)]
    ∧ (∀ d, d < 3000 →
        countUser (advance (recvTyping s uid email true) d) uid = 1)
    ∧ (∀ d, 3000 ≤ d →
        countUser (advance (recvTyping s uid email true) d) uid = 0) := by
  refine ⟨countUser_recvTyping_true s uid email h,
    timersOf_recvTyping_true s uid email, ?_, ?_⟩
  · intro d hd
    rw [countUser_advance, if_neg (by rw [fired_recvTyping_true_lt s uid email d hd]; simp)]
    exact countUser_recvTyping_true s uid email h
  · intro d hd
    rw [countUser_advance, if_pos (by rw [fired_recvTyping_true_ge s uid email d hd])]

/-- Witness for C2: the spec's virtual-time scenario.  Sender `"u1"`
starts typing at time 0, refreshes at 2000ms; it is still present after
2000 more milliseconds (4000ms total) and gone 3000ms after the
refresh. -/
theorem C2_typing_refresh_witness :
    countUser (advance (recvTyping
        (advance (recvTyping ⟨[], [], 0⟩ "u1" none true) 2000)
        "u1" none true) 2000) "u1" = 1
    ∧ countUser (advance (recvTyping
        (advance (recvTyping ⟨[], [], 0⟩ "u1" none true) 2000)
        "u1" none true) 3000) "u1" = 0 := by
  have h1 : countUser (advance (recvTyping ⟨[], [], 0⟩ "u1" none true) 2000)
      "u1" = 1 := by decide
  exact ⟨(C2_typing_refresh _ "u1" none h1).2.2.1 2000 (by decide),
    (C2_typing_refresh _ "u1" none h1).2.2.2 3000 (by decide)⟩

/-- C3: a TypingEvent with `escribiendo = false` for a sender removes the
sender from the typing-user set immediately and cancels its pending
expiry timer, and however much virtual time then passes, no stale timer
for that sender exists or fires: the sender stays absent. -/
theorem C3_stop_event_removes (s : PresenceState) (uid : String)
    (email : Option String) :
    countUser (recvTyping s uid email false) uid = 0
    ∧ timersOf (recvTyping s uid email false) uid = []
    ∧ ∀ d, countUser (advance (recvTyping s uid email false) d) uid = 0
        ∧ timersOf (advance (recvTyping s uid email false) d) uid = [] := by
  have husers : countUser (recvTyping s uid email false) uid = 0 := by
    rw [countUser, recvTyping_false_typingUsers, List.countP_filter]
    apply List.countP_eq_zero.mpr
    intro u hu
    simp
  have htimers : timersOf (recvTyping s uid email false) uid = [] := by
    rw [timersOf, recvTyping_false_typingTimers, clearTimer, List.filter_filter]
    apply List.filter_eq_nil_iff.mpr
    intro p hp
    simp
  refine ⟨husers, htimers, ?_⟩
  intro d
  constructor
  · rw [countUser_advance]
    split <;> simp [husers]
  · simp only [timersOf, advance]
    apply List.filter_eq_nil_iff.mpr
    intro p hp
    have hpmem := List.mem_of_mem_filter hp
    rw [recvTyping_false_typingTimers, clearTimer] at hpmem
    have := List.of_mem_filter hpmem
    simpa using this

/-- C4 counterexample: with one sender typing, the `useEffect` cleanup
clears the timer table but leaves the sender's entry in the typing-user
list, so the typing-user set is not empty after teardown as the claim
states. -/
theorem C4_teardown_counterexample :
    (teardownPresence (recvTyping ⟨[], [], 0⟩ "u1" none true)).typingTimers = []
    ∧ (teardownPresence (recvTyping ⟨[], [], 0⟩ "u1" none true)).typingUsers
        = [⟨"u1", none⟩] := by decide

/-- C4 amended: after teardown there are zero pending per-sender timers,
and no timer firing afterwards mutates the state (the typing-user list
and empty timer table are unchanged by any passage of virtual time); the
cleanup does not itself empty the typing-user list — that value is simply
discarded with the unmounted component. -/
theorem C4_teardown_amended (s : PresenceState) (d : Nat) :
    (teardownPresence s).typingTimers = []
    ∧ (advance (teardownPresence s) d).typingUsers = s.typingUsers
    ∧ (advance (teardownPresence s) d).typingTimers = [] := by
  refine ⟨rfl, ?_, rfl⟩
  simp [advance, teardownPresence]

/-! ## History loading (C7, C9) -/

/-- C7: a successful history load receives from the store at most
`limite` rows ordered newest-first (the store-side `order ... limit`
contract) and reverses them after mapping, so the displayed list has at
most `limite` entries and is ordered strictly oldest-to-newest by
creation timestamp. -/
theorem C7_history_oldest_first (limite : Nat) (rows : List Row)
    (hlen : rows.length ≤ limite)
    (hsort : rows.Pairwise (fun a b => b.created_at < a.created_at)) :
    (obtenerMensajes (.ok (some rows))).length ≤ limite
    ∧ (obtenerMensajes (.ok (some rows))).Pairwise
        (fun a b => a.created_at < b.created_at) := by
  constructor
  · simpa [obtenerMensajes] using hlen
  · simp only [obtenerMensajes, Option.getD_some]
    rw [List.pairwise_reverse, List.pairwise_map]
    exact hsort.imp (fun h => h)

/-- Witness for C7: two rows, newest first, within a limit of 50. -/
theorem C7_history_oldest_first_witness :
    (([⟨"b", "y", "u", 5, none, none⟩, ⟨"a", "x", "u", 3, none, none⟩] :
        List Row).length ≤ 50)
    ∧ ((obtenerMensajes (.ok (some
        [⟨"b", "y", "u", 5, none, none⟩,
         ⟨"a", "x", "u", 3, none, none⟩]))).length ≤ 50
      ∧ (obtenerMensajes (.ok (some
        [⟨"b", "y", "u", 5, none, none⟩,
         ⟨"a", "x", "u", 3, none, none⟩]))).Pairwise
          (fun a b => a.created_at < b.created_at)) :=
  ⟨by decide,
   C7_history_oldest_first 50 _ (by decide) (by decide)⟩

/-- C9: on a store failure during history loading the exception is
caught and the empty list is returned — the error is swallowed and the
UI shows no history. -/
theorem C9_store_failure_swallowed (e : String) :
    obtenerMensajes (.error e) = [] := rfl

/-! ## Send path and local typing-intent debouncer (C5, C6, C8, C10)

The collaborators seen by the send/typing path: the authenticated user
(`supabase.auth.getUser()`) and the outcome of the store insert.  The
local debouncer's state is `typingTimeoutRef` (the pending "stop" timer
as an absolute expiry time) together with the trace of broadcast typing
publishes, as pairs (time, `escribiendo`). -/

/-- The external collaborators of the send/typing path: the current
authenticated user, if any, and the error the store insert would
produce, if any. -/
structure Env where
  user : Option Usuario
  insertError : Option String
  deriving Repr, DecidableEq

/-- A `{success, error?}` result value. -/
structure Resultado where
  success : Bool
  error : Option String
  deriving Repr, DecidableEq

/-- The method `ChatUseCase.enviarMensaje`: resolves the user (failing with
"Usuario no autenticado" and no insert attempt when there is none), then
attempts the insert; a store error is caught and surfaced as
`{success:false, error:message}`.  Returns the result together with
whether an insert was attempted. -/
def enviarMensajeUC (env : Env) : Resultado × Bool :=
  match env.user with
  | none => (⟨false, some "Usuario no autenticado"⟩, false)
  | some _ =>
    match env.insertError with
    | some msg => (⟨false, some msg⟩, true)
    | none => (⟨true, none⟩, true)

/-- The method `ChatUseCase.setTyping` at virtual time `t`: resolves the user and,
only when one is authenticated, publishes a typing broadcast; with no
user it returns without publishing. -/
def setTypingAt (env : Env) (t : Nat) (escribiendo : Bool) :
    List (Nat × Bool) :=
  match env.user with
  | none => []
  | some _ => [(t, escribiendo)]

/-- The local debouncer's state: `typingTimeoutRef` (absolute expiry of
the pending 1500ms "stop" timer, if any) and the trace of typing
publishes so far. -/
structure DebounceState where
  typingTimeout : Option Nat
  pubs : List (Nat × Bool)
  deriving Repr, DecidableEq

/-- Fire the pending stop timer if its expiry has been reached by time
`t`: its callback calls `setTyping(false)` (publishing at the expiry
time) and nulls `typingTimeoutRef`. -/
def debFire (env : Env) (t : Nat) (s : DebounceState) : DebounceState :=
  match s.typingTimeout with
  | some e =>
      if e ≤ t then
        { typingTimeout := none, pubs := s.pubs ++ setTypingAt env e false }
      else s
  | none => s

/-- The hook's `notifyTyping` called at virtual time `t`: any stop timer already
due has fired; then `setTyping(true)` publishes immediately, the pending
stop timer (if still live) is cleared, and a fresh 1500ms stop timer is
started. -/
def notifyTypingAt (env : Env) (t : Nat) (s : DebounceState) :
    DebounceState :=
  let s := debFire env t s
  { typingTimeout := some (t + 1500), pubs := s.pubs ++ setTypingAt env t true }

/-- A burst of `notifyTyping` calls at the given virtual times. -/
def runNotifies (env : Env) (s : DebounceState) (ts : List Nat) :
    DebounceState :=
  ts.foldl (fun acc t => notifyTypingAt env t acc) s

/-- Let all remaining virtual time pass: the pending stop timer, if any,
eventually fires and calls `setTyping(false)`.  Returns the complete
publish trace. -/
def flush (env : Env) (s : DebounceState) : List (Nat × Bool) :=
  match s.typingTimeout with
  | some e => s.pubs ++ setTypingAt env e false
  | none => s.pubs

/-- JavaScript's `String.prototype.trim`, over the characters of the
body: leading and trailing whitespace is stripped. -/
def jsTrim (s : List Char) : List Char :=
  ((s.dropWhile Char.isWhitespace).reverse.dropWhile Char.isWhitespace).reverse

/-- The hook's `enviarMensaje` at virtual time `t`: an empty-after-trim
body (`!contenido.trim()`) is rejected locally with a validation error,
touching neither the store nor the typing channel; otherwise the use
case's insert runs and then `setTyping(false)` is called.  The pending
debounce timer is not touched. -/
def enviarMensajeAt (env : Env) (t : Nat) (contenido : List Char)
    (s : DebounceState) : Resultado × Bool × DebounceState :=
  if jsTrim contenido = [] then (⟨false, some "El mensaje está vacío"⟩, false, s)
  else
    let r := enviarMensajeUC env
    let s := debFire env t s
    (r.1, r.2, { s with pubs := s.pubs ++ setTypingAt env t false })

lemma runNotifies_burst (env : Env) (u : Usuario) (hu : env.user = some u)
    (ts : List Nat) :
    ∀ (t0 : Nat) (pubs : List (Nat × Bool)),
      List.Chain (fun a b => a < b ∧ b < a + 1500) t0 ts →
      runNotifies env ⟨some (t0 + 1500), pubs⟩ ts
        = ⟨some (ts.getLastD t0 + 1500),
           pubs ++ ts.map (fun t => (t, true))⟩ := by
  induction ts with
  | nil =>
      intro t0 pubs _
      simp [runNotifies]
  | cons t1 ts ih =>
      intro t0 pubs hch
      rw [List.chain_cons] at hch
      obtain ⟨⟨h01, h02⟩, hch⟩ := hch
      have hstep : notifyTypingAt env t1 ⟨some (t0 + 1500), pubs⟩
          = ⟨some (t1 + 1500), pubs ++ [(t1, true)]⟩ := by
        simp only [notifyTypingAt, debFire]
        rw [if_neg (by omega)]
        simp [setTypingAt, hu]
      simp only [runNotifies, List.foldl_cons]
      rw [hstep]
      have hih := ih t1 (pubs ++ [(t1, true)]) hch
      simp only [runNotifies] at hih
      rw [hih]
      simp only [List.map_cons, List.append_assoc, List.cons_append,
        List.nil_append, DebounceState.mk.injEq, Option.some.injEq,
        Nat.add_right_cancel_iff, List.append_cancel_left_eq, and_true]
      cases ts <;> simp [List.getLastD]

/-- C5: a burst of `notifyTyping` calls spaced less than 1500ms apart,
made while a user is authenticated, publishes `escribiendo = true`
immediately on each call but exactly one `escribiendo = false` ("stopped
typing"), 1500ms after the last call — not one per call. -/
theorem C5_debounce_single_stop (env : Env) (u : Usuario) (t0 : Nat)
    (ts : List Nat) (hu : env.user = some u)
    (hch : List.Chain (fun a b => a < b ∧ b < a + 1500) t0 ts) :
    flush env (runNotifies env ⟨none, []⟩ (t0 :: ts))
      = (t0 :: ts).map (fun t => (t, true))
          ++ [(ts.getLastD t0 + 1500, false)]
    ∧ (flush env (runNotifies env ⟨none, []⟩ (t0 :: ts))).countP
        (fun p => !p.2) = 1 := by
  have h0 : notifyTypingAt env t0 ⟨none, []⟩
      = ⟨some (t0 + 1500), [(t0, true)]⟩ := by
    simp [notifyTypingAt, debFire, setTypingAt, hu]
  have hrun : runNotifies env ⟨none, []⟩ (t0 :: ts)
      = ⟨some (ts.getLastD t0 + 1500),
         (t0 :: ts).map (fun t => (t, true))⟩ := by
    simp only [runNotifies, List.foldl_cons]
    rw [h0]
    have hih := runNotifies_burst env u hu ts t0 [(t0, true)] hch
    simp only [runNotifies] at hih
    rw [hih]
    simp
  have htrace : flush env (runNotifies env ⟨none, []⟩ (t0 :: ts))
      = (t0 :: ts).map (fun t => (t, true))
          ++ [(ts.getLastD t0 + 1500, false)] := by
    rw [hrun]
    simp [flush, setTypingAt, hu]
  refine ⟨htrace, ?_⟩
  rw [htrace]
  simp [List.countP_append, List.countP_map, Function.comp_def, List.countP_eq_zero]

/-- Witness for C5: three calls at 0ms, 500ms and 1000ms with an
authenticated user; the trace is three true-publishes and a single
false-publish at 2500ms. -/
theorem C5_debounce_single_stop_witness :
    (Env.mk (some ⟨"u1", none⟩) none).user = some ⟨"u1", none⟩
    ∧ List.Chain (fun a b => a < b ∧ b < a + 1500) 0 [500, 1000]
    ∧ (flush (Env.mk (some ⟨"u1", none⟩) none)
        (runNotifies (Env.mk (some ⟨"u1", none⟩) none) ⟨none, []⟩
          [0, 500, 1000])
        = [(0, true), (500, true), (1000, true), (2500, false)]
      ∧ (flush (Env.mk (some ⟨"u1", none⟩) none)
          (runNotifies (Env.mk (some ⟨"u1", none⟩) none) ⟨none, []⟩
            [0, 500, 1000])).countP (fun p => !p.2) = 1) := by
  refine ⟨rfl, by norm_num [List.chain_cons], ?_⟩
  have h := C5_debounce_single_stop (Env.mk (some ⟨"u1", none⟩) none)
    ⟨"u1", none⟩ 0 [500, 1000] rfl (by norm_num [List.chain_cons])
  exact ⟨by rw [h.1]; rfl, h.2⟩

/-- C6 counterexample: `notifyTyping` at 0ms and an explicit send of
"hola" at 10ms with an authenticated user.  After the send the 1500ms
debounce timer is still pending (it was not cancelled), and the full
publish trace contains two stopped-typing publishes — the immediate one
at 10ms and a duplicate at 1500ms from the surviving timer. -/
theorem C6_send_counterexample :
    (enviarMensajeAt (Env.mk (some ⟨"u1", none⟩) none) 10 "hola".data
        (notifyTypingAt (Env.mk (some ⟨"u1", none⟩) none) 0
          ⟨none, []⟩)).2.2.typingTimeout = some 1500
    ∧ (flush (Env.mk (some ⟨"u1", none⟩) none)
        (enviarMensajeAt (Env.mk (some ⟨"u1", none⟩) none) 10 "hola".data
          (notifyTypingAt (Env.mk (some ⟨"u1", none⟩) none) 0
            ⟨none, []⟩)).2.2).countP (fun p => !p.2) = 2 := by
  constructor <;> rfl

/-- C6 amended: an explicit send of a non-empty body by an authenticated
user publishes `escribiendo = false` immediately, even shortly after a
`notifyTyping` call, but does not cancel the pending 1500ms debounce
timer; that timer survives the send and later fires, publishing a second
stopped-typing signal. -/
theorem C6_send_keeps_timer (env : Env) (u : Usuario) (t e : Nat)
    (contenido : List Char) (s : DebounceState) (hu : env.user = some u)
    (hne : ¬ jsTrim contenido = []) (hto : s.typingTimeout = some e)
    (hte : t < e) :
    (enviarMensajeAt env t contenido s).2.2.typingTimeout = some e
    ∧ flush env (enviarMensajeAt env t contenido s).2.2
        = s.pubs ++ [(t, false), (e, false)] := by
  have hdf : debFire env t s = s := by
    simp only [debFire, hto]
    rw [if_neg (by omega)]
  simp only [enviarMensajeAt, if_neg hne, hdf]
  exact ⟨hto, by simp [flush, hto, setTypingAt, hu]⟩

/-- Witness for C6 amended: the 0ms/10ms scenario; the trace is the true
publish at 0ms, the send's stop publish at 10ms, and the timer's
duplicate stop publish at 1500ms. -/
theorem C6_send_keeps_timer_witness :
    (Env.mk (some ⟨"u1", none⟩) none).user = some ⟨"u1", none⟩
    ∧ ¬ jsTrim "hola".data = []
    ∧ (DebounceState.mk (some 1500) [(0, true)]).typingTimeout = some 1500
    ∧ 10 < 1500
    ∧ ((enviarMensajeAt (Env.mk (some ⟨"u1", none⟩) none) 10 "hola".data
          ⟨some 1500, [(0, true)]⟩).2.2.typingTimeout = some 1500
      ∧ flush (Env.mk (some ⟨"u1", none⟩) none)
          (enviarMensajeAt (Env.mk (some ⟨"u1", none⟩) none) 10 "hola".data
            ⟨some 1500, [(0, true)]⟩).2.2
          = [(0, true)] ++ [(10, false), (1500, false)]) :=
  ⟨rfl, by decide, rfl, by decide,
   C6_send_keeps_timer (Env.mk (some ⟨"u1", none⟩) none) ⟨"u1", none⟩
     10 1500 "hola".data ⟨some 1500, [(0, true)]⟩ rfl (by decide) rfl (by decide)⟩

/-- C8: a body that is empty after trimming is rejected locally: the
hook returns the validation failure, no store insert is attempted and no
typing publish or timer change happens at all. -/
theorem C8_empty_body_rejected (env : Env) (t : Nat) (contenido : List Char)
    (s : DebounceState) (h : jsTrim contenido = []) :
    enviarMensajeAt env t contenido s
      = (⟨false, some "El mensaje está vacío"⟩, false, s) := by
  simp [enviarMensajeAt, h]

/-- Witness for C8: a whitespace-only body. -/
theorem C8_empty_body_rejected_witness :
    jsTrim "   ".data = []
    ∧ enviarMensajeAt (Env.mk (some ⟨"u1", none⟩) none) 0 "   ".data ⟨none, []⟩
        = (⟨false, some "El mensaje está vacío"⟩, false, ⟨none, []⟩) :=
  ⟨by decide,
   C8_empty_body_rejected (Env.mk (some ⟨"u1", none⟩) none) 0 "   ".data
     ⟨none, []⟩ (by decide)⟩

/-- C10 counterexample: with no authenticated user, sending the
non-empty body "hola" produces no typing publish at all —
`setTyping(false)` is called but returns without publishing, so no
`escribiendo = false` signal is ever broadcast. -/
theorem C10_unauthenticated_counterexample :
    ¬ jsTrim "hola".data = []
    ∧ (enviarMensajeAt (Env.mk none none) 0 "hola".data ⟨none, []⟩).2.2.pubs
        = [] := by
  constructor <;> decide

/-- C10 amended: for a non-empty body the hook calls `setTyping(false)`
after the insert attempt, regardless of the insert's outcome; the
`escribiendo = false` broadcast is actually published exactly when a
user is authenticated, and is skipped when none is. -/
theorem C10_send_stop_publish (env : Env) (t : Nat) (contenido : List Char)
    (s : DebounceState) (hne : ¬ jsTrim contenido = []) :
    (∀ u, env.user = some u →
      (enviarMensajeAt env t contenido s).2.2.pubs
        = (debFire env t s).pubs ++ [(t, false)])
    ∧ (env.user = none →
      (enviarMensajeAt env t contenido s).2.2.pubs
        = (debFire env t s).pubs) := by
  constructor
  · intro u hu
    simp [enviarMensajeAt, hne, setTypingAt, hu]
  · intro hu
    simp [enviarMensajeAt, hne, setTypingAt, hu]

/-- Witness for C10 amended: an authenticated user whose insert fails
with a store error still gets the stop publish after the attempt. -/
theorem C10_send_stop_publish_witness :
    ¬ jsTrim "hola".data = []
    ∧ (Env.mk (some ⟨"u1", none⟩) (some "db error")).user
        = some ⟨"u1", none⟩
    ∧ (enviarMensajeAt (Env.mk (some ⟨"u1", none⟩) (some "db error")) 0
        "hola".data ⟨none, []⟩).2.2.pubs
        = (debFire (Env.mk (some ⟨"u1", none⟩) (some "db error")) 0
            ⟨none, []⟩).pubs ++ [(0, false)] :=
  ⟨by decide, rfl,
   (C10_send_stop_publish (Env.mk (some ⟨"u1", none⟩) (some "db error")) 0
     "hola".data ⟨none, []⟩ (by decide)).1 ⟨"u1", none⟩ rfl⟩

end RecetaChat
